import Mathlib

/-!
Shallow embedding of `langfun/core/llms/vertexai.py` (the Vertex AI language
model adapter) together with proofs of its specified contracts.

The adapter's own logic is pure apart from calls into the external provider
SDK.  External effects are modelled explicitly:

* provider responses come from a `ProviderOracle` argument (a function from
  the request data to the response data), and
* the calls the adapter issues to the SDK are collected into an explicit
  trace list, so that "performs no network call" is a statement about the
  trace.

Facilities of the repository that live outside the reviewed file (the
generic `LanguageModel` base class's rate-to-concurrency conversion and
`concurrent_execute` helper) are modelled from the specification; their
doc comments say so.
-/

/-- One entry of the static model registry: the API family string
(`"gemini"` or `"palm"`) and the requests-per-minute rate. -/
structure ModelSetting where
  api : String
  rpm : Nat
  deriving DecidableEq, Repr

/-- The static registry `SUPPORTED_MODELS_AND_SETTINGS` from the source,
mapping each supported model identifier to its settings. -/
def SUPPORTED_MODELS_AND_SETTINGS : List (String × ModelSetting) :=
  [ ("gemini-1.5-pro-preview-0409", { api := "gemini", rpm := 5 }),
    ("gemini-1.0-pro", { api := "gemini", rpm := 300 }),
    ("gemini-1.0-pro-vision", { api := "gemini", rpm := 100 }),
    ("text-bison", { api := "palm", rpm := 1600 }),
    ("text-bison-32k", { api := "palm", rpm := 300 }),
    ("text-unicorn", { api := "palm", rpm := 100 }) ]

/-- The model identifiers accepted by the adapter's constructor: the
`model` field is a `pg.typing.Enum` over the registry's keys. -/
def supportedModelNames : List String :=
  SUPPORTED_MODELS_AND_SETTINGS.map Prod.fst

/-- Registry lookup, `SUPPORTED_MODELS_AND_SETTINGS[m]` as a total map to
`Option`. -/
def registryLookup (m : String) : Option ModelSetting :=
  SUPPORTED_MODELS_AND_SETTINGS.lookup m

/-- Generic sampling options (`lf.LMSamplingOptions`) as consumed by this
adapter: temperature, top_p, top_k, max_tokens, stop sequences and the
requested sample count `n`. -/
structure LMSamplingOptions where
  temperature : Float
  top_p : Option Float
  top_k : Option Nat
  max_tokens : Nat
  stop : Option (List String)
  n : Nat
  deriving Repr

/-- Provider-side generation configuration built by `_generation_config`:
a direct field-by-field image of the sampling options. -/
structure GenerationConfig where
  temperature : Float
  top_p : Option Float
  top_k : Option Nat
  max_output_tokens : Nat
  stop_sequences : Option (List String)
  deriving Repr

/-- Embeds `_generation_config`: the 1:1 mapping from sampling options to the
generative API's configuration object. -/
def generation_config (options : LMSamplingOptions) : GenerationConfig :=
  { temperature := options.temperature,
    top_p := options.top_p,
    top_k := options.top_k,
    max_output_tokens := options.max_tokens,
    stop_sequences := options.stop }

/-- Keyword parameters passed to the text-completion API's `predict` call
by `_sample_text_generation_model`. -/
structure PredictOptions where
  temperature : Float
  top_k : Option Nat
  top_p : Option Float
  max_output_tokens : Nat
  stop_sequences : Option (List String)
  deriving Repr

/-- The keyword-parameter set built in `_sample_text_generation_model`. -/
def predict_options (options : LMSamplingOptions) : PredictOptions :=
  { temperature := options.temperature,
    top_k := options.top_k,
    top_p := options.top_p,
    max_output_tokens := options.max_tokens,
    stop_sequences := options.stop }

/-- One segment of a langfun prompt, as produced by `Message.chunk()`:
a plain string, an image modality (with its byte content), or some other
modality kind the adapter does not understand. -/
inductive LFChunk where
  | str (s : String)
  | image (bytes : List Nat)
  | other (kind : String) (bytes : List Nat)
  deriving DecidableEq, Repr

/-- A provider-acceptable content chunk for the generative API: a plain
string, or the provider's image wrapper (`Image.from_bytes`). -/
inductive GContent where
  | str (s : String)
  | image (bytes : List Nat)
  deriving DecidableEq, Repr

/-- The errors the adapter raises itself (all are `ValueError` in the
source; the unsupported-modality error is kept structured so that the
offending segment it names is visible). -/
inductive VError where
  | valueError (msg : String)
  | unsupportedModality (chunk : LFChunk)
  deriving DecidableEq, Repr

/-- A langfun message as consumed by the adapter: its plain text (used by
the text-completion path) and its chunk decomposition (used by the
generative path). -/
structure Message where
  text : String
  chunks : List LFChunk
  deriving DecidableEq, Repr

/-- A result message (`lf.AIMessage`). -/
structure AIMessage where
  text : String
  deriving DecidableEq, Repr

/-- Usage metadata attached to a generative API response. -/
structure UsageMetadata where
  prompt_token_count : Nat
  candidates_token_count : Nat
  total_token_count : Nat
  deriving DecidableEq, Repr

/-- A generative API response: generated text plus usage metadata. -/
structure GenerationResponse where
  text : String
  usage_metadata : UsageMetadata
  deriving DecidableEq, Repr

/-- A text-completion API response: generated text only. -/
structure TextGenerationResponse where
  text : String
  deriving DecidableEq, Repr

/-- Generic token usage record (`lf.LMSamplingUsage`). -/
structure LMSamplingUsage where
  prompt_tokens : Nat
  completion_tokens : Nat
  total_tokens : Nat
  deriving DecidableEq, Repr

/-- One generic sample (`lf.LMSample`): the response message and a score. -/
structure LMSample where
  response : AIMessage
  score : Float
  deriving Repr

/-- Generic sampling result (`lf.LMSamplingResult`): samples plus an
optional usage record (absent when the constructor omits it). -/
structure LMSamplingResult where
  samples : List LMSample
  usage : Option LMSamplingUsage := none
  deriving Repr

/-- The adapter instance (`VertexAI`): the constructor restricts `model`
to the registry's keys, which `model_supported` records. `credentials`
is opaque to the adapter and modelled as a present/absent marker. -/
structure VertexAI where
  model : String
  model_supported : model ∈ supportedModelNames
  project : Option String := none
  location : Option String := none
  credentials : Option Unit := none
  multimodal : Bool := false
  sampling_options : LMSamplingOptions

/-- The process environment as read by lazy API setup: the values of the
`VERTEXAI_PROJECT` and `VERTEXAI_LOCATION` environment variables
(`none` when unset; a set-but-empty value is also possible). -/
structure Env where
  vertexaiProject : Option String := none
  vertexaiLocation : Option String := none
  deriving DecidableEq, Repr

/-- Python truthiness of an optional string: `None` and the empty string
are falsy. -/
def truthyStr : Option String → Bool
  | none => false
  | some s => !(s == "")

/-- Python's `a or b` on optional strings: `a` when truthy, else `b`
verbatim. -/
def pyOrStr (a b : Option String) : Option String :=
  if truthyStr a then a else b

/-- The two configuration errors the lazy API setup can raise. -/
inductive InitError where
  | missingProject
  | missingLocation
  deriving DecidableEq, Repr

/-- The literal error messages raised by `_api_initialized` in the
source. -/
def InitError.message : InitError → String
  | .missingProject =>
      "Please specify `project` during `__init__` or set environment variable `VERTEXAI_PROJECT` with your Vertex AI project ID."
  | .missingLocation =>
      "Please specify `location` during `__init__` or set environment variable `VERTEXAI_LOCATION` with your Vertex AI service location."

/-- Whether one character list is an initial segment of another. -/
def leadsChars : List Char → List Char → Bool
  | [], _ => true
  | _ :: _, [] => false
  | a :: as, b :: bs => a == b && leadsChars as bs

/-- Whether `pat` occurs as a contiguous segment of the character list. -/
def hasSubChars (pat : List Char) : List Char → Bool
  | [] => leadsChars pat []
  | c :: rest => leadsChars pat (c :: rest) || hasSubChars pat rest

/-- Whether `pat` occurs as a substring of `msg` (used to state that an
error message names a field or an environment variable). -/
def mentionsSub (msg pat : String) : Bool :=
  hasSubChars pat.data msg.data

/-- Calls into the provider SDK issued during lazy setup. -/
inductive SdkCall where
  | vertexaiInit (project location : String) (credentials : Option Unit)
  deriving DecidableEq, Repr

/-- The body of the `_api_initialized` cached property: resolve `project`
and `location` from the explicit field or the environment variable, raise
a configuration error if either is unresolved, otherwise call
`vertexai.init` and return `True`.  The second component is the trace of
SDK calls performed. -/
def apiInitCompute (inst : VertexAI) (env : Env) :
    Except InitError Bool × List SdkCall :=
  let project := pyOrStr inst.project env.vertexaiProject
  if truthyStr project = false then
    (.error .missingProject, [])
  else
    let location := pyOrStr inst.location env.vertexaiLocation
    if truthyStr location = false then
      (.error .missingLocation, [])
    else
      (.ok true,
       [SdkCall.vertexaiInit (project.getD "") (location.getD "") inst.credentials])

/-- One access to the `_api_initialized` property under
`functools.cached_property` semantics: a cached value is returned without
recomputation; otherwise the body runs, and only a successful run stores
its value in the cache (a raised exception leaves the cache empty).
Returns the access outcome with its SDK-call trace, and the new cache
state. -/
def apiInitAccess (inst : VertexAI) (cache : Option Bool) (env : Env) :
    (Except InitError Bool × List SdkCall) × Option Bool :=
  match cache with
  | some v => ((.ok v, []), some v)
  | none =>
      match apiInitCompute inst env with
      | (.ok v, calls) => ((.ok v, calls), some v)
      | (.error e, calls) => ((.error e, calls), none)

/-- Embeds `_on_bound`: rebinding the instance pops the cached property, leaving
the cache empty. -/
def onBound (_cache : Option Bool) : Option Bool := none

/-- Embeds `model_id`: the adapter's model identifier string. -/
def model_id (inst : VertexAI) : String :=
  "VertexAI(" ++ inst.model ++ ")"

/-- Embeds `resource_id`: the resource key used for rate control. -/
def resource_id (inst : VertexAI) : String :=
  model_id inst

/-- The registry lookup for a constructed instance never fails, because
the constructor restricts `model` to the registry's keys. -/
theorem registryLookup_isSome (m : String) (h : m ∈ supportedModelNames) :
    (registryLookup m).isSome := by
  unfold registryLookup
  rw [List.lookup_isSome_iff]
  unfold supportedModelNames at h
  obtain ⟨p, hp, hpm⟩ := List.mem_map.mp h
  exact ⟨p, hp, by simp [hpm]⟩

/-- The registry entry of a constructed instance (`SUPPORTED_MODELS_AND_SETTINGS[self.model]`;
the Python `KeyError` branch is unreachable by the constructor's
restriction, which `model_supported` witnesses). -/
def modelSetting (inst : VertexAI) : ModelSetting :=
  (registryLookup inst.model).get
    (registryLookup_isSome inst.model inst.model_supported)

/-- Modelled from the spec: the generic `LanguageModel` base class's
rate-to-concurrency conversion, which is not part of the reviewed file.
The spec describes it as a fixed deterministic rule taking
(requests-per-minute, tokens-per-minute), used here with zero weight
given to the token rate, converting the per-minute request rate to a
positive number of concurrent in-flight requests. -/
def rate_to_max_concurrency (requests_per_min : Nat) (tokens_per_min : Nat) : Nat :=
  max (requests_per_min / 60) 1

/-- Embeds `max_concurrency`: the concurrency bound derived from the registry's
requests-per-minute with the token rate fixed at zero. -/
def max_concurrency (inst : VertexAI) : Nat :=
  rate_to_max_concurrency (modelSetting inst).rpm 0

/-- Translation of a single prompt chunk inside `_content_from_message`:
strings pass through; images are wrapped when `multimodal` is set; every
other case raises the unsupported-modality error naming the chunk. -/
def chunkTranslate (multimodal : Bool) (c : LFChunk) : Except VError GContent :=
  match c with
  | .str s => .ok (.str s)
  | .image bytes =>
      if multimodal then .ok (.image bytes)
      else .error (.unsupportedModality (.image bytes))
  | .other kind bytes => .error (.unsupportedModality (.other kind bytes))

/-- Embeds `_content_from_message`: translate the prompt's chunks left to right,
stopping at the first unsupported one. -/
def content_from_message (multimodal : Bool) : List LFChunk → Except VError (List GContent)
  | [] => .ok []
  | c :: rest =>
      match chunkTranslate multimodal c with
      | .error e => .error e
      | .ok g =>
          match content_from_message multimodal rest with
          | .error e => .error e
          | .ok gs => .ok (g :: gs)

/-- Whether a chunk is acceptable to `_content_from_message` under the
given `multimodal` flag. -/
def chunkOk (multimodal : Bool) : LFChunk → Bool
  | .str _ => true
  | .image _ => multimodal
  | .other _ _ => false

/-- The per-chunk translation relation stated by the spec: text passes
through unchanged, and an image becomes the provider's image wrapper
exactly when `multimodal` is set. -/
inductive ChunkRel (multimodal : Bool) : LFChunk → GContent → Prop where
  | str (s : String) : ChunkRel multimodal (.str s) (.str s)
  | image (bytes : List Nat) (h : multimodal = true) :
      ChunkRel multimodal (.image bytes) (.image bytes)

/-- The provider responses, supplied as an oracle: what the SDK would
return for a `generate_content` or `predict` call with the given
arguments. -/
structure ProviderOracle where
  generate_content : String → List GContent → GenerationConfig → GenerationResponse
  predict : String → String → PredictOptions → TextGenerationResponse

/-- Calls issued to the provider SDK during sampling, in order. -/
inductive ProviderCall where
  | getGenerativeModel (model_id : String)
  | generateContent (model_id : String) (content : List GContent) (config : GenerationConfig)
  | getTextGenerationModel (model_id : String)
  | predict (model_id : String) (text : String) (options : PredictOptions)
  deriving Repr

/-- Embeds `_sample_generative_model`: obtain the model handle, build the
content (which may raise the unsupported-modality error), call
`generate_content`, and wrap the response text into one zero-scored
sample together with a usage record taken from the response's usage
metadata. -/
def sample_generative_model (inst : VertexAI) (oracle : ProviderOracle)
    (prompt : Message) : Except VError LMSamplingResult × List ProviderCall :=
  match content_from_message inst.multimodal prompt.chunks with
  | .error e => (.error e, [ProviderCall.getGenerativeModel inst.model])
  | .ok input_content =>
      let config := generation_config inst.sampling_options
      let response := oracle.generate_content inst.model input_content config
      (.ok { samples := [{ response := { text := response.text }, score := 0.0 }],
             usage := some
               { prompt_tokens := response.usage_metadata.prompt_token_count,
                 completion_tokens := response.usage_metadata.candidates_token_count,
                 total_tokens := response.usage_metadata.total_token_count } },
       [ProviderCall.getGenerativeModel inst.model,
        ProviderCall.generateContent inst.model input_content config])

/-- Embeds `_sample_text_generation_model`: obtain the model handle, call
`predict` with the 1:1-mapped options, and wrap the response text into
one zero-scored sample with no usage record. -/
def sample_text_generation_model (inst : VertexAI) (oracle : ProviderOracle)
    (prompt : Message) : Except VError LMSamplingResult × List ProviderCall :=
  let options := predict_options inst.sampling_options
  let response := oracle.predict inst.model prompt.text options
  (.ok { samples := [{ response := { text := response.text }, score := 0.0 }],
         usage := none },
   [ProviderCall.getTextGenerationModel inst.model,
    ProviderCall.predict inst.model prompt.text options])

/-- Embeds `_sample_single`: reject a request for more than one sample before
doing anything else, then dispatch on the registry's API family string. -/
def sample_single (inst : VertexAI) (oracle : ProviderOracle)
    (prompt : Message) : Except VError LMSamplingResult × List ProviderCall :=
  if inst.sampling_options.n > 1 then
    (.error (.valueError
      ("`n` greater than 1 is not supported: " ++ toString inst.sampling_options.n ++ ".")), [])
  else
    let api := (modelSetting inst).api
    if api = "gemini" then sample_generative_model inst oracle prompt
    else if api = "palm" then sample_text_generation_model inst oracle prompt
    else (.error (.valueError ("Unsupported API: " ++ api)), [])

/-- Modelled from the spec: `lf.concurrent_execute`, the generic
bounded-concurrency executor owned by the repository's core library and
not part of the reviewed file.  The spec's contract: each input item is
dispatched once, and each result is positionally associated with its
input item, so the output order matches the input order regardless of
the order in which dispatches complete.  Completion order is modelled as
an explicit list of input positions; a completion at position `i` stores
the result for input `i` in slot `i`. -/
def concurrent_execute (f : α → β) (xs : List α) (completionOrder : List Nat) :
    List (Option β) :=
  completionOrder.foldl
    (fun acc i =>
      match xs[i]? with
      | some x => acc.set i (some (f x))
      | none => acc)
    (List.replicate xs.length none)

/-- The parameters `_sample` hands to the external executor: the resource
key, the concurrency bound, and the disabled retry policy. -/
structure ExecuteRequest where
  key : String
  max_workers : Nat
  retry_on_errors : Option Unit
  deriving DecidableEq, Repr

/-- The executor parameters built by `_sample`. -/
def sampleExecuteRequest (inst : VertexAI) : ExecuteRequest :=
  { key := resource_id inst,
    max_workers := max_concurrency inst,
    retry_on_errors := none }

/-- Embeds `_sample`: run `_sample_single` over the prompts through the
executor. -/
def sample (inst : VertexAI) (oracle : ProviderOracle) (prompts : List Message)
    (completionOrder : List Nat) :
    List (Option (Except VError LMSamplingResult × List ProviderCall)) :=
  concurrent_execute (fun p => sample_single inst oracle p) prompts completionOrder

/-- The `_ModelHub` state: one cache per API family plus a counter
supplying the identity of each newly constructed handle (handles are
opaque provider objects; distinct constructions yield distinct
identities). -/
structure ModelHub where
  generative_model_cache : List (String × Nat)
  text_generation_model_cache : List (String × Nat)
  next_handle : Nat
  deriving DecidableEq, Repr

/-- The hub as constructed at module load: both caches empty. -/
def ModelHub.init : ModelHub :=
  { generative_model_cache := [],
    text_generation_model_cache := [],
    next_handle := 0 }

/-- Embeds `_ModelHub.get_generative_model`: return the cached handle, or
construct one, store it and return it. -/
def get_generative_model (hub : ModelHub) (model_id : String) : Nat × ModelHub :=
  match hub.generative_model_cache.lookup model_id with
  | some m => (m, hub)
  | none =>
      (hub.next_handle,
       { hub with
         generative_model_cache :=
           (model_id, hub.next_handle) :: hub.generative_model_cache,
         next_handle := hub.next_handle + 1 })

/-- Embeds `_ModelHub.get_text_generation_model`: same pattern on the other
cache. -/
def get_text_generation_model (hub : ModelHub) (model_id : String) : Nat × ModelHub :=
  match hub.text_generation_model_cache.lookup model_id with
  | some m => (m, hub)
  | none =>
      (hub.next_handle,
       { hub with
         text_generation_model_cache :=
           (model_id, hub.next_handle) :: hub.text_generation_model_cache,
         next_handle := hub.next_handle + 1 })

/-- One operation against the hub. -/
inductive HubOp where
  | getGenerative (model_id : String)
  | getTextGeneration (model_id : String)
  deriving DecidableEq, Repr

/-- Apply one hub operation to the state. -/
def applyHubOp (hub : ModelHub) (op : HubOp) : ModelHub :=
  match op with
  | .getGenerative m => (get_generative_model hub m).2
  | .getTextGeneration m => (get_text_generation_model hub m).2

/-- Apply a sequence of hub operations left to right. -/
def applyHubOps (hub : ModelHub) (ops : List HubOp) : ModelHub :=
  ops.foldl applyHubOp hub

/-! ### Concrete fixtures used by witnesses -/

/-- A concrete sampling-options record requesting one sample. -/
def optsOne : LMSamplingOptions :=
  { temperature := 0.0, top_p := none, top_k := some 40,
    max_tokens := 1024, stop := none, n := 1 }

/-- A concrete sampling-options record requesting two samples. -/
def optsTwo : LMSamplingOptions :=
  { optsOne with n := 2 }

/-- A fully configured `text-bison` instance. -/
def instBison : VertexAI :=
  { model := "text-bison", model_supported := by decide,
    project := some "my-project", location := some "us-central1",
    sampling_options := optsOne }

/-- A second `text-bison` instance with a different project. -/
def instBisonB : VertexAI :=
  { model := "text-bison", model_supported := by decide,
    project := some "other-project", location := some "europe-west1",
    sampling_options := optsOne }

/-- A `text-bison` instance requesting two samples. -/
def instBisonN2 : VertexAI :=
  { instBison with sampling_options := optsTwo }

/-- A multimodal gemini instance. -/
def instGemini : VertexAI :=
  { model := "gemini-1.0-pro-vision", model_supported := by decide,
    project := some "my-project", location := some "us-central1",
    multimodal := true, sampling_options := optsOne }

/-- An instance with neither project nor location configured. -/
def instNoConfig : VertexAI :=
  { model := "text-bison", model_supported := by decide,
    sampling_options := optsOne }

/-- An instance with a project but no location. -/
def instProjOnly : VertexAI :=
  { model := "text-bison", model_supported := by decide,
    project := some "my-project", sampling_options := optsOne }

/-- An environment with neither variable set. -/
def envEmpty : Env := {}

/-- An environment supplying both variables. -/
def envFull : Env :=
  { vertexaiProject := some "env-project", vertexaiLocation := some "env-location" }

/-- A fixed provider oracle. -/
def oracleFixed : ProviderOracle :=
  { generate_content := fun _ _ _ =>
      { text := "gemini says hi",
        usage_metadata :=
          { prompt_token_count := 3, candidates_token_count := 5,
            total_token_count := 8 } },
    predict := fun _ _ _ => { text := "palm says hi" } }

/-- A plain text prompt. -/
def promptHello : Message :=
  { text := "Hello", chunks := [LFChunk.str "Hello"] }

/-- A second plain text prompt. -/
def promptWorld : Message :=
  { text := "World", chunks := [LFChunk.str "World"] }

/-! ### Shared helper lemmas -/

/-- The registry lookup of a constructed instance returns its
`modelSetting`. -/
theorem registryLookup_modelSetting (inst : VertexAI) :
    registryLookup inst.model = some (modelSetting inst) :=
  (Option.some_get _).symm

/-- A lookup result determines `modelSetting`. -/
theorem modelSetting_eq_of_lookup (inst : VertexAI) (s : ModelSetting)
    (h : registryLookup inst.model = some s) : modelSetting inst = s :=
  Option.get_of_mem _ (Option.mem_def.mpr h)

/-- Instances with the same model have the same registry entry. -/
theorem modelSetting_model_congr (a b : VertexAI) (h : b.model = a.model) :
    modelSetting b = modelSetting a := by
  have ha := registryLookup_modelSetting a
  exact modelSetting_eq_of_lookup b (modelSetting a) (by rw [h, ha])

/-! ### C3 -/

/-- C3: the resource key `_sample` passes to the bounded-concurrency
executor equals the adapter's model identifier, so any two adapter
instances constructed with the same model share one concurrency-budget
key. -/
theorem resource_key_eq_model_id (inst : VertexAI) :
    (sampleExecuteRequest inst).key = model_id inst ∧
    ∀ inst2 : VertexAI, inst2.model = inst.model →
      (sampleExecuteRequest inst2).key = (sampleExecuteRequest inst).key := by
  refine ⟨rfl, ?_⟩
  intro inst2 h
  simp [sampleExecuteRequest, resource_id, model_id, h]

/-- Witness for C3 at two concrete `text-bison` instances. -/
theorem resource_key_eq_model_id_witness :
    (sampleExecuteRequest instBison).key = model_id instBison ∧
    (sampleExecuteRequest instBisonB).key = (sampleExecuteRequest instBison).key :=
  ⟨(resource_key_eq_model_id instBison).1,
   (resource_key_eq_model_id instBison).2 instBisonB rfl⟩

/-! ### C4 -/

/-- C4: lazy setup resolves `project` and `location` from the explicit
field or, failing that, the corresponding environment variable.  If
either is unresolved it fails before any SDK call with the configuration
error whose message names the missing field and the environment variable
that could supply it; otherwise it initializes the SDK with the resolved
values. -/
theorem api_init_resolution (inst : VertexAI) (env : Env) :
    (truthyStr (pyOrStr inst.project env.vertexaiProject) = false →
      apiInitCompute inst env = (.error .missingProject, []) ∧
      mentionsSub (InitError.message .missingProject) "project" = true ∧
      mentionsSub (InitError.message .missingProject) "VERTEXAI_PROJECT" = true) ∧
    (truthyStr (pyOrStr inst.project env.vertexaiProject) = true →
     truthyStr (pyOrStr inst.location env.vertexaiLocation) = false →
      apiInitCompute inst env = (.error .missingLocation, []) ∧
      mentionsSub (InitError.message .missingLocation) "location" = true ∧
      mentionsSub (InitError.message .missingLocation) "VERTEXAI_LOCATION" = true) ∧
    (truthyStr (pyOrStr inst.project env.vertexaiProject) = true →
     truthyStr (pyOrStr inst.location env.vertexaiLocation) = true →
      apiInitCompute inst env =
        (.ok true,
         [SdkCall.vertexaiInit ((pyOrStr inst.project env.vertexaiProject).getD "")
            ((pyOrStr inst.location env.vertexaiLocation).getD "") inst.credentials])) := by
  refine ⟨?_, ?_, ?_⟩
  · intro h1
    refine ⟨?_, by decide, by decide⟩
    simp [apiInitCompute, h1]
  · intro h1 h2
    refine ⟨?_, by decide, by decide⟩
    simp [apiInitCompute, h1, h2]
  · intro h1 h2
    simp [apiInitCompute, h1, h2]

/-- Witness for C4: a missing project, a missing location, and a fully
resolved setup, at concrete instances. -/
theorem api_init_resolution_witness :
    (apiInitCompute instNoConfig envEmpty = (.error .missingProject, []) ∧
      mentionsSub (InitError.message .missingProject) "project" = true ∧
      mentionsSub (InitError.message .missingProject) "VERTEXAI_PROJECT" = true) ∧
    (apiInitCompute instProjOnly envEmpty = (.error .missingLocation, []) ∧
      mentionsSub (InitError.message .missingLocation) "location" = true ∧
      mentionsSub (InitError.message .missingLocation) "VERTEXAI_LOCATION" = true) ∧
    apiInitCompute instBison envEmpty =
      (.ok true, [SdkCall.vertexaiInit "my-project" "us-central1" none]) :=
  ⟨(api_init_resolution instNoConfig envEmpty).1 (by decide),
   (api_init_resolution instProjOnly envEmpty).2.1 (by decide) (by decide),
   (api_init_resolution instBison envEmpty).2.2 (by decide) (by decide)⟩

/-! ### C5 -/

/-- C5: requesting more than one sample per prompt fails with the
validation error, and no provider call is made: neither a model-handle
fetch nor a request appears in the trace. -/
theorem sample_single_rejects_multisample (inst : VertexAI)
    (oracle : ProviderOracle) (prompt : Message)
    (h : inst.sampling_options.n > 1) :
    sample_single inst oracle prompt =
      (.error (.valueError
        ("`n` greater than 1 is not supported: " ++
          toString inst.sampling_options.n ++ ".")),
       []) := by
  unfold sample_single
  rw [if_pos h]

/-- Witness for C5 at a concrete instance requesting two samples. -/
theorem sample_single_rejects_multisample_witness :
    instBisonN2.sampling_options.n > 1 ∧
    sample_single instBisonN2 oracleFixed promptHello =
      (.error (.valueError "`n` greater than 1 is not supported: 2."), []) :=
  ⟨by decide,
   sample_single_rejects_multisample instBisonN2 oracleFixed promptHello (by decide)⟩

/-! ### C9 -/

/-- C9: the concurrency bound is the rate-to-concurrency conversion
applied to the registry's requests-per-minute with the token rate fixed
at zero — a positive integer determined by the registry entry alone, so
it is the same for any two instances of the same model. -/
theorem max_concurrency_from_registry (inst : VertexAI) :
    ∃ s, registryLookup inst.model = some s ∧
      max_concurrency inst = rate_to_max_concurrency s.rpm 0 ∧
      0 < max_concurrency inst ∧
      ∀ inst2 : VertexAI, inst2.model = inst.model →
        max_concurrency inst2 = max_concurrency inst := by
  refine ⟨modelSetting inst, registryLookup_modelSetting inst, rfl, ?_, ?_⟩
  · unfold max_concurrency rate_to_max_concurrency
    exact Nat.lt_of_lt_of_le Nat.zero_lt_one (Nat.le_max_right _ _)
  · intro inst2 h2
    unfold max_concurrency
    rw [modelSetting_model_congr inst inst2 h2]

/-- Witness for C9 at two concrete `text-bison` instances. -/
theorem max_concurrency_from_registry_witness :
    0 < max_concurrency instBison ∧
    max_concurrency instBisonB = max_concurrency instBison := by
  obtain ⟨s, -, -, hpos, hdet⟩ := max_concurrency_from_registry instBison
  exact ⟨hpos, hdet instBisonB rfl⟩

/-! ### C10 -/

/-- C10: a failed lazy setup is not cached on the instance — the failing
access leaves the cache empty, so a later access recomputes from the
fields and the (possibly changed) environment and succeeds once both
values resolve; a cached success short-circuits every later access; and
when both project and location are unresolved the error raised is the
project one (project is validated first). -/
theorem api_init_failure_not_cached (inst : VertexAI) (env env2 : Env) :
    (∀ e calls, apiInitCompute inst env = (.error e, calls) →
      apiInitAccess inst none env = ((.error e, calls), none)) ∧
    (∀ e calls, apiInitCompute inst env = (.error e, calls) →
     truthyStr (pyOrStr inst.project env2.vertexaiProject) = true →
     truthyStr (pyOrStr inst.location env2.vertexaiLocation) = true →
      apiInitAccess inst (apiInitAccess inst none env).2 env2 =
        ((.ok true,
          [SdkCall.vertexaiInit ((pyOrStr inst.project env2.vertexaiProject).getD "")
             ((pyOrStr inst.location env2.vertexaiLocation).getD "") inst.credentials]),
         some true)) ∧
    (∀ env3, apiInitAccess inst (some true) env3 = ((.ok true, []), some true)) ∧
    (truthyStr (pyOrStr inst.project env.vertexaiProject) = false →
     truthyStr (pyOrStr inst.location env.vertexaiLocation) = false →
      apiInitCompute inst env = (.error .missingProject, [])) := by
  refine ⟨?_, ?_, ?_, ?_⟩
  · intro e calls h
    simp [apiInitAccess, h]
  · intro e calls h h1 h2
    have hcache : (apiInitAccess inst none env).2 = none := by
      simp [apiInitAccess, h]
    rw [hcache]
    simp [apiInitAccess, apiInitCompute, h1, h2]
  · intro env3
    rfl
  · intro h1 _h2
    simp [apiInitCompute, h1]

/-- Witness for C10: the failing, retried and cached accesses at a
concrete instance. -/
theorem api_init_failure_not_cached_witness :
    apiInitAccess instNoConfig none envEmpty = ((.error .missingProject, []), none) ∧
    apiInitAccess instNoConfig (apiInitAccess instNoConfig none envEmpty).2 envFull =
      ((.ok true, [SdkCall.vertexaiInit "env-project" "env-location" none]), some true) ∧
    apiInitAccess instNoConfig (some true) envEmpty = ((.ok true, []), some true) ∧
    apiInitCompute instNoConfig envEmpty = (.error .missingProject, []) := by
  obtain ⟨ha, hb, hc, hd⟩ := api_init_failure_not_cached instNoConfig envEmpty envFull
  exact ⟨ha .missingProject [] rfl,
         hb .missingProject [] rfl (by decide) (by decide),
         hc envEmpty,
         hd (by decide) (by decide)⟩

/-! ### C7 -/

/-- Every registry entry's API family is gemini or palm. -/
theorem registry_api_families :
    ∀ p ∈ SUPPORTED_MODELS_AND_SETTINGS, p.2.api = "gemini" ∨ p.2.api = "palm" := by
  decide

/-- A successful registry lookup yields a gemini or palm entry. -/
theorem registry_api_cases (m : String) (s : ModelSetting)
    (h : registryLookup m = some s) : s.api = "gemini" ∨ s.api = "palm" := by
  unfold registryLookup at h
  rw [List.lookup_eq_some_iff] at h
  obtain ⟨l1, l2, hl, -⟩ := h
  have hmem : (m, s) ∈ SUPPORTED_MODELS_AND_SETTINGS := by
    rw [hl]; simp
  exact registry_api_families (m, s) hmem

/-- C7: for every constructible instance the registry's API family is
`"gemini"` or `"palm"`; dispatch selects the generative path exactly for
gemini and the text-completion path for palm, so the unsupported-API
error branch of `_sample_single` is unreachable. -/
theorem dispatch_by_api_family (inst : VertexAI) :
    ((modelSetting inst).api = "gemini" ∨ (modelSetting inst).api = "palm") ∧
    ∀ oracle prompt, inst.sampling_options.n ≤ 1 →
      sample_single inst oracle prompt =
        if (modelSetting inst).api = "gemini" then
          sample_generative_model inst oracle prompt
        else sample_text_generation_model inst oracle prompt := by
  have hapi := registry_api_cases inst.model (modelSetting inst)
    (registryLookup_modelSetting inst)
  refine ⟨hapi, ?_⟩
  intro oracle prompt hn
  have hn' : ¬ inst.sampling_options.n > 1 := by omega
  unfold sample_single
  rw [if_neg hn']
  rcases hapi with h | h
  · rw [h]
    simp
  · rw [h]
    norm_num

/-- Witness for C7 at a concrete palm instance. -/
theorem dispatch_by_api_family_witness :
    ((modelSetting instBison).api = "gemini" ∨ (modelSetting instBison).api = "palm") ∧
    sample_single instBison oracleFixed promptHello =
      (if (modelSetting instBison).api = "gemini" then
        sample_generative_model instBison oracleFixed promptHello
      else sample_text_generation_model instBison oracleFixed promptHello) := by
  obtain ⟨h1, h2⟩ := dispatch_by_api_family instBison
  exact ⟨h1, h2 oracleFixed promptHello (by decide)⟩

/-! ### C2 -/

/-- Per-chunk success characterization: translation succeeds exactly as
the spec's per-chunk relation describes. -/
theorem chunkTranslate_ok_iff (m : Bool) (c : LFChunk) (g : GContent) :
    chunkTranslate m c = .ok g ↔ ChunkRel m c g := by
  cases c with
  | str s =>
      constructor
      · intro h
        simp [chunkTranslate] at h
        rw [← h]
        exact ChunkRel.str s
      · intro h
        cases h
        rfl
  | image bytes =>
      cases m with
      | true =>
          constructor
          · intro h
            simp [chunkTranslate] at h
            rw [← h]
            exact ChunkRel.image bytes rfl
          · intro h
            cases h
            rfl
      | false =>
          constructor
          · intro h
            simp [chunkTranslate] at h
          · intro h
            cases h with
            | image _ hm => cases hm
  | other kind bytes =>
      constructor
      · intro h
        simp [chunkTranslate] at h
      · intro h
        cases h

/-- Per-chunk failure characterization: translation fails exactly on the
chunks `chunkOk` rejects, with the error naming that chunk. -/
theorem chunkTranslate_error_iff (m : Bool) (c : LFChunk) (e : VError) :
    chunkTranslate m c = .error e ↔
      chunkOk m c = false ∧ e = .unsupportedModality c := by
  cases c with
  | str s => simp [chunkTranslate, chunkOk]
  | image bytes => cases m <;> simp [chunkTranslate, chunkOk, eq_comm]
  | other kind bytes => simp [chunkTranslate, chunkOk, eq_comm]

/-- A chunk related to some output is accepted. -/
theorem ChunkRel.ok_of_rel (m : Bool) (c : LFChunk) (g : GContent)
    (h : ChunkRel m c g) : chunkOk m c = true := by
  cases h with
  | str s => rfl
  | image bytes hm => simpa [chunkOk] using hm

/-- Successful content translation yields exactly the pointwise
translation of the chunks. -/
theorem content_ok_of_forall₂ (m : Bool) (chunks : List LFChunk)
    (out : List GContent) (h : List.Forall₂ (ChunkRel m) chunks out) :
    content_from_message m chunks = .ok out := by
  induction h with
  | nil => rfl
  | cons hr _ ih =>
      unfold content_from_message
      rw [(chunkTranslate_ok_iff _ _ _).mpr hr, ih]

/-- Conversely, a successful translation relates inputs and outputs
pointwise. -/
theorem forall₂_of_content_ok (m : Bool) (chunks : List LFChunk) :
    ∀ out, content_from_message m chunks = .ok out →
      List.Forall₂ (ChunkRel m) chunks out := by
  induction chunks with
  | nil =>
      intro out h
      simp [content_from_message] at h
      rw [h]
      exact List.Forall₂.nil
  | cons c rest ih =>
      intro out h
      unfold content_from_message at h
      cases hct : chunkTranslate m c with
      | error e => rw [hct] at h; cases h
      | ok g =>
          rw [hct] at h
          cases hrec : content_from_message m rest with
          | error e => rw [hrec] at h; cases h
          | ok gs =>
              rw [hrec] at h
              cases h
              exact List.Forall₂.cons ((chunkTranslate_ok_iff _ _ _).mp hct) (ih gs hrec)

/-- A failed translation is the unsupported-modality error naming a
rejected chunk of the prompt. -/
theorem content_error_names_chunk (m : Bool) (chunks : List LFChunk) :
    ∀ e, content_from_message m chunks = .error e →
      ∃ c, c ∈ chunks ∧ chunkOk m c = false ∧ e = .unsupportedModality c := by
  induction chunks with
  | nil => intro e h; cases h
  | cons c rest ih =>
      intro e h
      unfold content_from_message at h
      cases hct : chunkTranslate m c with
      | error e2 =>
          rw [hct] at h
          cases h
          obtain ⟨hbad, he⟩ := (chunkTranslate_error_iff m c _).mp hct
          exact ⟨c, List.mem_cons_self c rest, hbad, he⟩
      | ok g =>
          rw [hct] at h
          cases hrec : content_from_message m rest with
          | error e2 =>
              rw [hrec] at h
              cases h
              obtain ⟨c2, hmem, hbad, he⟩ := ih _ hrec
              exact ⟨c2, List.mem_cons_of_mem c hmem, hbad, he⟩
          | ok gs => rw [hrec] at h; cases h

/-- Chunks related pointwise to some output are all accepted. -/
theorem forall₂_chunks_ok (m : Bool) {chunks : List LFChunk}
    {out : List GContent} (hf : List.Forall₂ (ChunkRel m) chunks out) :
    ∀ c ∈ chunks, chunkOk m c = true := by
  induction hf with
  | nil => intro c hc; cases hc
  | @cons a b l1 l2 hr hrest ih =>
      intro c hc
      rcases List.mem_cons.mp hc with hceq | hcmem
      · rw [hceq]; exact ChunkRel.ok_of_rel m a b hr
      · exact ih c hcmem

/-- A successful translation means every chunk was accepted. -/
theorem content_ok_chunks_ok (m : Bool) (chunks : List LFChunk)
    (out : List GContent) (h : content_from_message m chunks = .ok out) :
    ∀ c ∈ chunks, chunkOk m c = true :=
  forall₂_chunks_ok m (forall₂_of_content_ok m chunks out h)

/-- C2: content building maps text through unchanged and maps an image
to the provider wrapper exactly when `multimodal` is set (the pointwise
relation characterizes success); any failure is an unsupported-modality
error naming a rejected segment of the prompt; and the presence of any
rejected segment forces such a failure. -/
theorem content_translation_policy (m : Bool) (chunks : List LFChunk) :
    (∀ out, content_from_message m chunks = .ok out ↔
      List.Forall₂ (ChunkRel m) chunks out) ∧
    (∀ e, content_from_message m chunks = .error e →
      ∃ c, c ∈ chunks ∧ chunkOk m c = false ∧ e = .unsupportedModality c) ∧
    ((∃ c, c ∈ chunks ∧ chunkOk m c = false) →
      ∃ c, c ∈ chunks ∧ chunkOk m c = false ∧
        content_from_message m chunks = .error (.unsupportedModality c)) := by
  refine ⟨fun out => ⟨forall₂_of_content_ok m chunks out, content_ok_of_forall₂ m chunks out⟩,
          content_error_names_chunk m chunks, ?_⟩
  intro hbad
  cases hc : content_from_message m chunks with
  | error e =>
      obtain ⟨c, hmem, hco, he⟩ := content_error_names_chunk m chunks e hc
      exact ⟨c, hmem, hco, by rw [he]⟩
  | ok out =>
      obtain ⟨c, hmem, hco⟩ := hbad
      have := content_ok_chunks_ok m chunks out hc c hmem
      rw [this] at hco
      cases hco

/-- Witness for C2: an image segment is rejected without the multimodal
flag and accepted with it. -/
theorem content_translation_policy_witness :
    content_from_message false [LFChunk.image [7]] =
      .error (.unsupportedModality (.image [7])) ∧
    content_from_message true [LFChunk.image [7]] = .ok [GContent.image [7]] := by
  obtain ⟨c, hmem, -, herr⟩ := (content_translation_policy false [LFChunk.image [7]]).2.2
    ⟨.image [7], List.mem_singleton.mpr rfl, rfl⟩
  have hc : c = LFChunk.image [7] := List.mem_singleton.mp hmem
  subst hc
  refine ⟨herr, ?_⟩
  exact ((content_translation_policy true [LFChunk.image [7]]).1 [GContent.image [7]]).mpr
    (List.Forall₂.cons (ChunkRel.image [7] rfl) List.Forall₂.nil)

/-! ### C6 -/

/-- C6: response translation wraps the provider's text into exactly one
sample with score `0.0`; the generative path fills the usage record from
the response's usage metadata, while the text-completion path produces
no usage record. -/
theorem parse_response_shape (inst : VertexAI) (oracle : ProviderOracle)
    (prompt : Message) :
    (∀ content, content_from_message inst.multimodal prompt.chunks = .ok content →
      ∃ r calls, sample_generative_model inst oracle prompt = (.ok r, calls) ∧
        r.samples =
          [{ response :=
              { text := (oracle.generate_content inst.model content
                  (generation_config inst.sampling_options)).text },
             score := 0.0 }] ∧
        r.usage = some
          { prompt_tokens := (oracle.generate_content inst.model content
              (generation_config inst.sampling_options)).usage_metadata.prompt_token_count,
            completion_tokens := (oracle.generate_content inst.model content
              (generation_config inst.sampling_options)).usage_metadata.candidates_token_count,
            total_tokens := (oracle.generate_content inst.model content
              (generation_config inst.sampling_options)).usage_metadata.total_token_count }) ∧
    (∃ r calls, sample_text_generation_model inst oracle prompt = (.ok r, calls) ∧
      r.samples =
        [{ response :=
            { text := (oracle.predict inst.model prompt.text
                (predict_options inst.sampling_options)).text },
           score := 0.0 }] ∧
      r.usage = none) := by
  constructor
  · intro content h
    unfold sample_generative_model
    rw [h]
    exact ⟨_, _, rfl, rfl, rfl⟩
  · exact ⟨_, _, rfl, rfl, rfl⟩

/-- Witness for C6: concrete responses on the gemini and palm paths. -/
theorem parse_response_shape_witness :
    (∃ r calls, sample_generative_model instGemini oracleFixed promptHello = (.ok r, calls) ∧
      r.samples = [{ response := { text := "gemini says hi" }, score := 0.0 }] ∧
      r.usage = some { prompt_tokens := 3, completion_tokens := 5, total_tokens := 8 }) ∧
    (∃ r calls, sample_text_generation_model instBison oracleFixed promptHello = (.ok r, calls) ∧
      r.samples = [{ response := { text := "palm says hi" }, score := 0.0 }] ∧
      r.usage = none) := by
  obtain ⟨hgem, -⟩ := parse_response_shape instGemini oracleFixed promptHello
  obtain ⟨-, hpalm⟩ := parse_response_shape instBison oracleFixed promptHello
  obtain ⟨r, calls, he, hs, hu⟩ := hgem [GContent.str "Hello"] rfl
  exact ⟨⟨r, calls, he, hs, hu⟩, hpalm⟩

/-! ### C8 -/

/-- After a generative get, the cache holds the returned handle. -/
theorem get_generative_model_caches (hub : ModelHub) (k : String) :
    (get_generative_model hub k).2.generative_model_cache.lookup k =
      some (get_generative_model hub k).1 := by
  unfold get_generative_model
  cases hm : hub.generative_model_cache.lookup k with
  | some v => simp [hm]
  | none => simp [hm]

/-- After a text-completion get, the cache holds the returned handle. -/
theorem get_text_generation_model_caches (hub : ModelHub) (k : String) :
    (get_text_generation_model hub k).2.text_generation_model_cache.lookup k =
      some (get_text_generation_model hub k).1 := by
  unfold get_text_generation_model
  cases hm : hub.text_generation_model_cache.lookup k with
  | some v => simp [hm]
  | none => simp [hm]

/-- A cached generative handle is returned as is, with no state change. -/
theorem get_generative_model_of_cached (hub : ModelHub) (k : String) (h : Nat)
    (hl : hub.generative_model_cache.lookup k = some h) :
    get_generative_model hub k = (h, hub) := by
  unfold get_generative_model
  rw [hl]

/-- A cached text-completion handle is returned as is, with no state
change. -/
theorem get_text_generation_model_of_cached (hub : ModelHub) (k : String) (h : Nat)
    (hl : hub.text_generation_model_cache.lookup k = some h) :
    get_text_generation_model hub k = (h, hub) := by
  unfold get_text_generation_model
  rw [hl]

/-- No hub operation evicts or overwrites a generative cache entry. -/
theorem gen_cache_persists_op (hub : ModelHub) (op : HubOp) (k : String) (h : Nat)
    (hl : hub.generative_model_cache.lookup k = some h) :
    (applyHubOp hub op).generative_model_cache.lookup k = some h := by
  cases op with
  | getGenerative m =>
      simp only [applyHubOp]
      unfold get_generative_model
      cases hm : hub.generative_model_cache.lookup m with
      | some v => exact hl
      | none =>
          have hne : (k == m) = false := by
            cases hbe : k == m with
            | false => rfl
            | true =>
                rw [eq_of_beq hbe] at hl
                rw [hl] at hm
                cases hm
          simp [List.lookup_cons, hne, hl]
  | getTextGeneration m =>
      simp only [applyHubOp]
      unfold get_text_generation_model
      cases hm : hub.text_generation_model_cache.lookup m with
      | some v => exact hl
      | none => exact hl

/-- No hub operation evicts or overwrites a text-completion cache
entry. -/
theorem text_cache_persists_op (hub : ModelHub) (op : HubOp) (k : String) (h : Nat)
    (hl : hub.text_generation_model_cache.lookup k = some h) :
    (applyHubOp hub op).text_generation_model_cache.lookup k = some h := by
  cases op with
  | getTextGeneration m =>
      simp only [applyHubOp]
      unfold get_text_generation_model
      cases hm : hub.text_generation_model_cache.lookup m with
      | some v => exact hl
      | none =>
          have hne : (k == m) = false := by
            cases hbe : k == m with
            | false => rfl
            | true =>
                rw [eq_of_beq hbe] at hl
                rw [hl] at hm
                cases hm
          simp [List.lookup_cons, hne, hl]
  | getGenerative m =>
      simp only [applyHubOp]
      unfold get_generative_model
      cases hm : hub.generative_model_cache.lookup m with
      | some v => exact hl
      | none => exact hl

/-- Generative cache entries persist through any operation sequence. -/
theorem gen_cache_persists (ops : List HubOp) (hub : ModelHub) (k : String) (h : Nat)
    (hl : hub.generative_model_cache.lookup k = some h) :
    (applyHubOps hub ops).generative_model_cache.lookup k = some h := by
  induction ops generalizing hub with
  | nil => exact hl
  | cons op rest ih =>
      exact ih (applyHubOp hub op) (gen_cache_persists_op hub op k h hl)

/-- Text-completion cache entries persist through any operation
sequence. -/
theorem text_cache_persists (ops : List HubOp) (hub : ModelHub) (k : String) (h : Nat)
    (hl : hub.text_generation_model_cache.lookup k = some h) :
    (applyHubOps hub ops).text_generation_model_cache.lookup k = some h := by
  induction ops generalizing hub with
  | nil => exact hl
  | cons op rest ih =>
      exact ih (applyHubOp hub op) (text_cache_persists_op hub op k h hl)

/-- C8: once a handle for a model id has been obtained, any later get of
the same id on the same API family — with arbitrary hub operations in
between — returns the very same handle and leaves the hub unchanged:
the handle is constructed at most once per (API family, model id) pair
and never evicted. -/
theorem model_hub_memoizes (hub : ModelHub) (k : String) (ops : List HubOp) :
    get_generative_model (applyHubOps (get_generative_model hub k).2 ops) k =
      ((get_generative_model hub k).1, applyHubOps (get_generative_model hub k).2 ops) ∧
    get_text_generation_model (applyHubOps (get_text_generation_model hub k).2 ops) k =
      ((get_text_generation_model hub k).1, applyHubOps (get_text_generation_model hub k).2 ops) := by
  constructor
  · exact get_generative_model_of_cached _ _ _
      (gen_cache_persists ops _ k _ (get_generative_model_caches hub k))
  · exact get_text_generation_model_of_cached _ _ _
      (text_cache_persists ops _ k _ (get_text_generation_model_caches hub k))

/-! ### C1 -/

/-- The executor's result has one slot per input, whatever the completion
order. -/
theorem concurrent_execute_length {α β : Type} (f : α → β) (xs : List α)
    (completionOrder : List Nat) :
    (concurrent_execute f xs completionOrder).length = xs.length := by
  unfold concurrent_execute
  have hgen : ∀ (order : List Nat) (acc : List (Option β)),
      (order.foldl
        (fun acc i =>
          match xs[i]? with
          | some x => acc.set i (some (f x))
          | none => acc) acc).length = acc.length := by
    intro order
    induction order with
    | nil => intro acc; rfl
    | cons i rest ih =>
        intro acc
        rw [List.foldl_cons, ih]
        cases hx : xs[i]? with
        | some x => simp
        | none => rfl
  exact (hgen completionOrder (List.replicate xs.length none)).trans
    (List.length_replicate _ _)

/-- Whatever completions already happened, once position `j` completes
(or its slot already holds its result), slot `j` holds the result for
input `j`. -/
theorem concurrent_execute_fill {α β : Type} (f : α → β) (xs : List α)
    (completionOrder : List Nat) :
    ∀ (acc : List (Option β)), acc.length = xs.length →
      ∀ j, (hj : j < xs.length) →
        (j ∈ completionOrder ∨ acc[j]? = some (some (f xs[j]))) →
        (completionOrder.foldl
          (fun acc i =>
            match xs[i]? with
            | some x => acc.set i (some (f x))
            | none => acc) acc)[j]? = some (some (f xs[j])) := by
  induction completionOrder with
  | nil =>
      intro acc hlen j hj hmem
      rcases hmem with hmem | hacc
      · cases hmem
      · exact hacc
  | cons i rest ih =>
      intro acc hlen j hj hmem
      rw [List.foldl_cons]
      have hstep : ∀ (next : List (Option β)),
          next = (match xs[i]? with
                  | some x => acc.set i (some (f x))
                  | none => acc) →
          next.length = xs.length := by
        intro next hnext
        cases hx : xs[i]? <;> rw [hnext, hx] <;> simp [hlen]
      apply ih _ (hstep _ rfl) j hj
      rcases hmem with hmem | hacc
      · rcases List.mem_cons.mp hmem with hji | hjr
        · right
          rw [← hji]
          have hx : xs[j]? = some xs[j] := List.getElem?_eq_getElem hj
          rw [hx]
          have hjacc : j < acc.length := by rw [hlen]; exact hj
          exact List.getElem?_set_self hjacc
        · left; exact hjr
      · right
        cases hx : xs[i]? with
        | none => exact hacc
        | some x =>
            by_cases hij : i = j
            · have : xs[j]? = some x := by rw [← hij]; exact hx
              have hxx : x = xs[j] := by
                rw [List.getElem?_eq_getElem hj] at this
                exact (Option.some.injEq _ _ ▸ this).symm
              rw [hij, hxx]
              have hjacc : j < acc.length := by rw [hlen]; exact hj
              exact List.getElem?_set_self hjacc
            · rw [List.getElem?_set_ne hij]
              exact hacc

/-- C1: for a prompt list of length `N`, `_sample` returns exactly `N`
results, and the result in slot `i` is the sampling result of prompt
`i`, for every completion order that completes each dispatched prompt —
input order is preserved regardless of completion order. -/
theorem sample_returns_results_in_input_order (inst : VertexAI)
    (oracle : ProviderOracle) (prompts : List Message)
    (completionOrder : List Nat)
    (hcomplete : ∀ i, i < prompts.length → i ∈ completionOrder) :
    (sample inst oracle prompts completionOrder).length = prompts.length ∧
    ∀ i, (hi : i < prompts.length) →
      (sample inst oracle prompts completionOrder)[i]? =
        some (some (sample_single inst oracle prompts[i])) := by
  constructor
  · exact concurrent_execute_length _ prompts completionOrder
  · intro i hi
    exact concurrent_execute_fill (fun p => sample_single inst oracle p) prompts
      completionOrder (List.replicate prompts.length none) (List.length_replicate _ _)
      i hi (Or.inl (hcomplete i hi))

/-- Witness for C1: two prompts completing out of order (slot 1 first)
still deliver results in input order. -/
theorem sample_returns_results_in_input_order_witness :
    (sample instBison oracleFixed [promptHello, promptWorld] [1, 0]).length = 2 ∧
    (sample instBison oracleFixed [promptHello, promptWorld] [1, 0])[0]? =
      some (some (sample_single instBison oracleFixed promptHello)) := by
  obtain ⟨hlen, hget⟩ := sample_returns_results_in_input_order instBison oracleFixed
    [promptHello, promptWorld] [1, 0] (by decide)
  exact ⟨hlen, hget 0 (by decide)⟩

/-- Witness for C8: a repeated get on the freshly constructed hub returns
the identical handle without changing the hub. -/
theorem model_hub_memoizes_witness :
    get_generative_model (get_generative_model ModelHub.init "gemini-1.0-pro").2
        "gemini-1.0-pro" =
      ((get_generative_model ModelHub.init "gemini-1.0-pro").1,
       (get_generative_model ModelHub.init "gemini-1.0-pro").2) :=
  (model_hub_memoizes ModelHub.init "gemini-1.0-pro" []).1
